import Mathlib

/-!
Shallow embedding of `app.py` from the object-detection-app repository.

The service periodically fetches a camera image, runs a YOLO detector on
it, and publishes a result record to Firebase.  External effects (HTTP
download, image decoding, the YOLO model, the Firebase writes, runtime
exceptions) are modelled as explicit environment parameters; fallible
steps are modelled with `Except` and `Option`.  Confidence values are
modelled as rationals, with the rounding of `round(conf, 2)` embedded as
round-half-to-even at two decimal places.
-/

namespace ObjectDetectionApp

/-- A single detection entry, as built in `detect_objects`
(`{"label": label, "confidence": round(conf, 2)}`). -/
structure DetectionItem where
  label : String
  confidence : ℚ
deriving Repr, DecidableEq

/-- Round a rational to the nearest integer, ties to even: the rounding
mode of CPython's `round`. -/
def roundHalfEven (q : ℚ) : ℤ :=
  let f := ⌊q⌋
  let r := q - f
  if r < 1/2 then f
  else if 1/2 < r then f + 1
  else if f % 2 = 0 then f else f + 1

/-- `round(conf, 2)`: round to two decimal places, ties to even. -/
def round2 (q : ℚ) : ℚ := (roundHalfEven (q * 100) : ℚ) / 100

/-- The loop over `result.boxes` in `detect_objects`: each box yields
`{"label": model.names[cls], "confidence": round(conf, 2)}`.  A box is
modelled as a pair of a class index and a raw confidence. -/
def mkItems (names : Nat → String) (boxes : List (Nat × ℚ)) : List DetectionItem :=
  boxes.map (fun b => { label := names b.1, confidence := round2 b.2 })

/-- Environment of one `detect_objects` call: the outcome of each
external step it performs.
* `download` — `requests.get(image_url, timeout=10)` plus
  `raise_for_status()`: `ok` on a 2xx body, `error` on a timeout, a
  network exception, or a non-2xx status.
* `localExists` — `os.path.exists("static/image.jpg")`.
* `decodeOk` — whether `cv2.imread` returns a non-`None` image.
* `infer` — `model(img, conf=0.25, iou=0.45)`: either the flattened
  list of `(cls, conf)` boxes or an exception (this also covers the
  `TypeError` raised when the global `model` is `None`).
* `names` — the `model.names` class-index-to-label table. -/
structure DetectEnv where
  download : Except String Unit
  localExists : Bool
  decodeOk : Bool
  infer : Except String (List (Nat × ℚ))
  names : Nat → String

/-- Result of one `detect_objects` call: the returned
`(detections, error)` pair, plus whether the scoped temporary file was
created (`tempfile.NamedTemporaryFile(delete=False)`) and whether it was
removed (`os.unlink(temp_path)`). -/
structure DetectRun where
  ret : Option (List DetectionItem) × Option String
  tempCreated : Bool
  tempRemoved : Bool
deriving Repr

/-- `detect_objects(image_url)` traced step by step.

URL branch: download the body (any exception is caught by the enclosing
`try` and becomes `(None, "Detection error: ...")`), write it to a
temporary file, `cv2.imread` it (`(_, "Failed to read image")` on a
`None` image, returned from inside the `try`, before the cleanup line),
run the model (an exception again lands in the `except` arm), build the
items, then — only on this success path — unlink the temporary file.

Local branch (`image_url` absent): read `static/image.jpg`; the unlink
is guarded by `if image_url`, so no file is ever removed here. -/
def detect_objects (image_url : Option String) (env : DetectEnv) : DetectRun :=
  match image_url with
  | some _ =>
    match env.download with
    | Except.error e =>
      { ret := (none, some ("Detection error: " ++ e)), tempCreated := false, tempRemoved := false }
    | Except.ok _ =>
      if env.decodeOk = false then
        { ret := (some [], some "Failed to read image"), tempCreated := true, tempRemoved := false }
      else
        match env.infer with
        | Except.error e =>
          { ret := (none, some ("Detection error: " ++ e)), tempCreated := true, tempRemoved := false }
        | Except.ok boxes =>
          { ret := (some (mkItems env.names boxes), none), tempCreated := true, tempRemoved := true }
  | none =>
    if env.localExists = false then
      { ret := (some [], some "Image file not found"), tempCreated := false, tempRemoved := false }
    else if env.decodeOk = false then
      { ret := (some [], some "Failed to read image"), tempCreated := false, tempRemoved := false }
    else
      match env.infer with
      | Except.error e =>
        { ret := (none, some ("Detection error: " ++ e)), tempCreated := false, tempRemoved := false }
      | Except.ok boxes =>
        { ret := (some (mkItems env.names boxes), none), tempCreated := false, tempRemoved := false }

/-- Python truthiness of the `error` argument of `send_to_firebase`
(`if error:`): `None` and the empty string are falsy. -/
def truthyStr : Option String → Bool
  | none => false
  | some s => s != ""

/-- The `data` dictionary built by `send_to_firebase`, with absent keys
modelled as `none`. -/
structure ResultRecord where
  timestamp : String
  status : String
  detections_count : Nat
  error : Option String
  first_label : Option String
  all_detections : Option (List DetectionItem)
deriving Repr, DecidableEq

/-- The record-shaping part of `send_to_firebase`: `if error:` builds an
`"Error"` record; `elif not detections or len(detections) == 0:` builds a
`"No objects detected"` record; otherwise a `"Detected"` record with
`first_label = detections[0]["label"]`. -/
def build_record (ts : String) (detections : Option (List DetectionItem))
    (error : Option String) : ResultRecord :=
  if truthyStr error then
    { timestamp := ts, status := "Error", detections_count := 0,
      error := error, first_label := none, all_detections := none }
  else
    match detections with
    | some (d :: ds) =>
      { timestamp := ts, status := "Detected", detections_count := (d :: ds).length,
        error := none, first_label := some d.label, all_detections := some (d :: ds) }
    | _ =>
      { timestamp := ts, status := "No objects detected", detections_count := 0,
        error := none, first_label := none, all_detections := none }

/-- `send_to_firebase(detections, error)`.  The two store writes
(`set` on `/detections/latest`, `push` on `/detections/history`) are
modelled as functions that either acknowledge or raise; a raise lands in
the `except` arm and yields `False`.  When `firebase_initialized` is
false the function returns `False` before building the record. -/
def send_to_firebase (firebase_initialized : Bool) (ts : String)
    (detections : Option (List DetectionItem)) (error : Option String)
    (setLatest pushHistory : ResultRecord → Except String Unit) : Bool :=
  if firebase_initialized = false then
    false
  else
    let data := build_record ts detections error
    match setLatest data with
    | Except.error _ => false
    | Except.ok _ =>
      match pushHistory data with
      | Except.error _ => false
      | Except.ok _ => true

/-- The camera URL hard-coded in `detection_worker`. -/
def ESP32_CAM_URL : String := "http://your-esp32-ip/capture"

/-- Environment of one `detection_worker` loop iteration.
* `modelLoaded` — whether the global `model` is not `None`.
* `firebase_initialized` — the global readiness flag.
* `denv` — the behaviour of the external steps of this iteration's
  `detect_objects(ESP32_CAM_URL)` call.
* `ts`, `setLatest`, `pushHistory` — the timestamp and store-write
  behaviour seen by this iteration's `send_to_firebase` call.
* `interrupt` — an exception injected by the runtime into the `try`
  body after the pipeline calls (`detect_objects` and
  `send_to_firebase` catch their own exceptions, so the logging
  statements after them are where an unhandled exception can arise);
  `some msg` sends the iteration to the `except` arm. -/
structure IterEnv where
  modelLoaded : Bool
  firebase_initialized : Bool
  denv : DetectEnv
  ts : String
  setLatest : ResultRecord → Except String Unit
  pushHistory : ResultRecord → Except String Unit
  interrupt : Option String

/-- Observable outcome of one `detection_worker` iteration: the new
`detection_count`, how many HTTP fetches, `detect_objects` calls and
`send_to_firebase` calls ran, the publish return value (`none` when no
publish ran), and the sleep duration chosen before the next iteration. -/
structure IterResult where
  count : Nat
  fetchCalls : Nat
  detectCalls : Nat
  publishCalls : Nat
  published : Option Bool
  sleep : Nat
deriving Repr, DecidableEq

/-- One iteration of the `while True` body of `detection_worker`:
increment `detection_count`; if `model is None` or
`not firebase_initialized`, skip the pipeline and sleep 60; otherwise
run `detect_objects(ESP32_CAM_URL)` (whose URL branch always issues one
HTTP fetch) then `send_to_firebase`, and sleep 30 — unless an unhandled
exception arises, in which case the `except` arm sleeps 60. -/
def detection_worker_iter (detection_count : Nat) (env : IterEnv) : IterResult :=
  let c := detection_count + 1
  if env.modelLoaded = false then
    { count := c, fetchCalls := 0, detectCalls := 0, publishCalls := 0,
      published := none, sleep := 60 }
  else if env.firebase_initialized = false then
    { count := c, fetchCalls := 0, detectCalls := 0, publishCalls := 0,
      published := none, sleep := 60 }
  else
    let run := detect_objects (some ESP32_CAM_URL) env.denv
    let pub := send_to_firebase env.firebase_initialized env.ts
      run.ret.1 run.ret.2 env.setLatest env.pushHistory
    match env.interrupt with
    | some _ =>
      { count := c, fetchCalls := 1, detectCalls := 1, publishCalls := 1,
        published := some pub, sleep := 60 }
    | none =>
      { count := c, fetchCalls := 1, detectCalls := 1, publishCalls := 1,
        published := some pub, sleep := 30 }

/-- The `detection_worker` loop run over a finite prefix of iteration
environments, threading `detection_count` through. -/
def detection_worker_run (detection_count : Nat) : List IterEnv → List IterResult
  | [] => []
  | e :: es =>
    let r := detection_worker_iter detection_count e
    r :: detection_worker_run r.count es

/-- The JSON body returned by the `/detect` route: either
`{"status": "error", "message": ...}` or
`{"status": "success", "detections": ..., "count": ...}`, with absent
keys modelled as `none`. -/
structure ManualResponse where
  status : String
  message : Option String
  detections : Option (List DetectionItem)
  count : Option Nat
deriving Repr, DecidableEq

/-- Outcome of one `/detect` request: the response body and the value
returned by its `send_to_firebase` call. -/
structure ManualRun where
  response : ManualResponse
  published : Bool
deriving Repr

/-- The `manual_detect` handler of the `/detect` route: one
`detect_objects()` call (no URL, so the local-image branch), one
`send_to_firebase(detections, error)` call, then a summary JSON body
keyed on `if error:`. -/
def manual_detect (env : DetectEnv) (firebase_initialized : Bool) (ts : String)
    (setLatest pushHistory : ResultRecord → Except String Unit) : ManualRun :=
  let run := detect_objects none env
  let detections := run.ret.1
  let error := run.ret.2
  let pub := send_to_firebase firebase_initialized ts detections error setLatest pushHistory
  if truthyStr error then
    { response := { status := "error", message := some (error.getD ""),
                    detections := none, count := none },
      published := pub }
  else
    { response := { status := "success", message := none,
                    detections := some (detections.getD []),
                    count := some (detections.getD []).length },
      published := pub }

/-- Follows the spec wording, for comparison with `manual_detect`: the
spec says the manual trigger returns the ResultRecord built from the
detection outcome as its response body. -/
def manual_detect_response_spec (env : DetectEnv) (ts : String) : ResultRecord :=
  build_record ts (detect_objects none env).ret.1 (detect_objects none env).ret.2

/-! ### Helper lemmas about the rounding function -/

theorem roundHalfEven_eq_floor_or_succ (q : ℚ) :
    roundHalfEven q = ⌊q⌋ ∨ roundHalfEven q = ⌊q⌋ + 1 := by
  unfold roundHalfEven
  dsimp only
  split_ifs <;> simp

theorem roundHalfEven_nonneg (q : ℚ) (h : 0 ≤ q) : 0 ≤ roundHalfEven q := by
  have hf : (0:ℤ) ≤ ⌊q⌋ := Int.floor_nonneg.mpr h
  rcases roundHalfEven_eq_floor_or_succ q with h1 | h1 <;> omega

theorem roundHalfEven_le (q : ℚ) (n : ℤ) (h : q ≤ (n : ℚ)) : roundHalfEven q ≤ n := by
  have hfl : ⌊q⌋ ≤ n := by
    have := Int.floor_le_floor h
    rwa [Int.floor_intCast] at this
  unfold roundHalfEven
  dsimp only
  have hq : (⌊q⌋ : ℚ) ≤ q := Int.floor_le q
  split_ifs with h1 h2 h3
  · exact hfl
  · have hlt : ((⌊q⌋ : ℤ) : ℚ) < (n : ℚ) := by linarith
    have := Int.cast_lt.mp hlt
    omega
  · exact hfl
  · have heq : q - (⌊q⌋ : ℚ) = 1/2 := le_antisymm (not_lt.mp h2) (not_lt.mp h1)
    have hlt : ((⌊q⌋ : ℤ) : ℚ) < (n : ℚ) := by linarith
    have := Int.cast_lt.mp hlt
    omega

theorem round2_nonneg (q : ℚ) (h : 0 ≤ q) : 0 ≤ round2 q := by
  have h0 : (0:ℚ) ≤ q * 100 := by linarith
  have := roundHalfEven_nonneg (q * 100) h0
  unfold round2
  positivity

theorem round2_le_one (q : ℚ) (h : q ≤ 1) : round2 q ≤ 1 := by
  have h0 : q * 100 ≤ ((100 : ℤ) : ℚ) := by push_cast; linarith
  have hle := roundHalfEven_le (q * 100) 100 h0
  unfold round2
  rw [div_le_one (by norm_num)]
  exact_mod_cast hle

theorem round2_mul_100_int (q : ℚ) :
    round2 q * 100 = ((roundHalfEven (q * 100) : ℤ) : ℚ) := by
  unfold round2
  field_simp

/-! ### C1 — temporary-file cleanup in the URL branch -/

/-- C1 counterexample: the claim that the scoped temporary file is
removed on every exit path is false.  With a successful download and a
decoder that fails to parse the bytes, `detect_objects` returns
`([], "Failed to read image")` from inside the `try` block without
reaching the cleanup line: the temporary file was created but is not
removed. -/
theorem c1_temp_file_leaked_on_decode_failure :
    (detect_objects (some "http://your-esp32-ip/capture")
      { download := Except.ok (), localExists := false, decodeOk := false,
        infer := Except.ok [], names := fun _ => "" }).tempCreated = true ∧
    (detect_objects (some "http://your-esp32-ip/capture")
      { download := Except.ok (), localExists := false, decodeOk := false,
        infer := Except.ok [], names := fun _ => "" }).tempRemoved = false :=
  ⟨rfl, rfl⟩

/-- C1 amended: after a successful download the scoped temporary file is
always created, and it is removed exactly on the exit path where the
decoder parses the bytes and the detector returns without an exception;
on a decode failure or an exception during detection the file is not
removed. -/
theorem c1_temp_file_cleanup (u : String) (env : DetectEnv)
    (hdl : env.download = Except.ok ()) :
    (detect_objects (some u) env).tempCreated = true ∧
    ((detect_objects (some u) env).tempRemoved = true ↔
      (env.decodeOk = true ∧ ∃ boxes, env.infer = Except.ok boxes)) := by
  unfold detect_objects
  rw [hdl]
  rcases hdec : env.decodeOk with _ | _
  · simp [hdec]
  · rcases hinf : env.infer with e | boxes <;> simp [hinf]

/-- C1 witness: on the all-successful path the temporary file is both
created and removed. -/
theorem c1_temp_file_cleanup_witness :
    (detect_objects (some "u")
      { download := Except.ok (), localExists := true, decodeOk := true,
        infer := Except.ok [], names := fun _ => "x" }).tempCreated = true ∧
    (detect_objects (some "u")
      { download := Except.ok (), localExists := true, decodeOk := true,
        infer := Except.ok [], names := fun _ => "x" }).tempRemoved = true :=
  have h := c1_temp_file_cleanup "u"
    { download := Except.ok (), localExists := true, decodeOk := true,
      infer := Except.ok [], names := fun _ => "x" } rfl
  ⟨h.1, h.2.mpr ⟨rfl, [], rfl⟩⟩

/-! ### C2 — record for the empty outcome -/

/-- C2 counterexample: for the empty outcome the record status is the
string with spaces, not the camel-case string the claim states. -/
theorem c2_status_string_counterexample :
    (build_record "2024-01-01 12:00:00" (some []) none).status = "No objects detected" ∧
    (build_record "2024-01-01 12:00:00" (some []) none).status ≠ "NoObjectsDetected" := by
  constructor
  · rfl
  · decide

/-- C2 amended: for every detection outcome that succeeded with zero
detected objects (and no error), the record has status exactly
"No objects detected" and detections_count 0, with the error,
first_label and all_detections keys absent. -/
theorem c2_empty_outcome_record (ts : String)
    (detections : Option (List DetectionItem)) (error : Option String)
    (herr : truthyStr error = false)
    (hdet : detections = none ∨ detections = some []) :
    build_record ts detections error =
      { timestamp := ts, status := "No objects detected", detections_count := 0,
        error := none, first_label := none, all_detections := none } := by
  rcases hdet with h | h <;> subst h <;> simp [build_record, herr]

/-- C2 witness: the empty-list outcome with no error at a concrete
timestamp. -/
theorem c2_empty_outcome_record_witness :
    truthyStr none = false ∧
    build_record "2024-01-01 12:00:00" (some []) none =
      { timestamp := "2024-01-01 12:00:00", status := "No objects detected",
        detections_count := 0, error := none, first_label := none,
        all_detections := none } :=
  ⟨rfl, c2_empty_outcome_record "2024-01-01 12:00:00" (some []) none rfl (Or.inr rfl)⟩

/-! ### C3 — the manual-trigger response body -/

/-- C3 counterexample: the claim that the `/detect` endpoint returns the
ResultRecord as its response body is false.  For a run whose detection
succeeds with one object, the published record has status "Detected"
while the response body has status "success" — the response is a
different summary shape, not the ResultRecord. -/
theorem c3_response_not_result_record :
    (manual_detect
      { download := Except.ok (), localExists := true, decodeOk := true,
        infer := Except.ok [(0, 9/10)], names := fun _ => "person" }
      true "2024-01-01 12:00:00"
      (fun _ => Except.ok ()) (fun _ => Except.ok ())).response.status = "success" ∧
    (manual_detect_response_spec
      { download := Except.ok (), localExists := true, decodeOk := true,
        infer := Except.ok [(0, 9/10)], names := fun _ => "person" }
      "2024-01-01 12:00:00").status = "Detected" ∧
    (manual_detect
      { download := Except.ok (), localExists := true, decodeOk := true,
        infer := Except.ok [(0, 9/10)], names := fun _ => "person" }
      true "2024-01-01 12:00:00"
      (fun _ => Except.ok ()) (fun _ => Except.ok ())).response.status ≠
    (manual_detect_response_spec
      { download := Except.ok (), localExists := true, decodeOk := true,
        infer := Except.ok [(0, 9/10)], names := fun _ => "person" }
      "2024-01-01 12:00:00").status := by
  refine ⟨rfl, rfl, ?_⟩
  decide

/-- C3 amended: the `/detect` endpoint runs one detect→build→publish
pass synchronously (its publish return value is exactly that of
`send_to_firebase` on the detection outcome) and returns a summary JSON
body whose status is "error" exactly when the detection produced an
error (with the message field carrying it), and "success" otherwise,
with the count field equal to the number of detections — not the
ResultRecord itself. -/
theorem c3_manual_detect_summary (env : DetectEnv) (fb : Bool) (ts : String)
    (setLatest pushHistory : ResultRecord → Except String Unit) :
    ((manual_detect env fb ts setLatest pushHistory).published =
      send_to_firebase fb ts (detect_objects none env).ret.1
        (detect_objects none env).ret.2 setLatest pushHistory) ∧
    ((manual_detect env fb ts setLatest pushHistory).response.status = "error" ∨
      (manual_detect env fb ts setLatest pushHistory).response.status = "success") ∧
    ((manual_detect env fb ts setLatest pushHistory).response.status = "error" ↔
      truthyStr (detect_objects none env).ret.2 = true) ∧
    ((manual_detect env fb ts setLatest pushHistory).response.status = "success" →
      (manual_detect env fb ts setLatest pushHistory).response.count =
        some ((detect_objects none env).ret.1.getD []).length) := by
  unfold manual_detect
  rcases h : truthyStr (detect_objects none env).ret.2 with _ | _ <;> simp [h]

/-- C3 witness: a concrete successful run, where the response count is
the number of detected objects. -/
theorem c3_manual_detect_summary_witness :
    (manual_detect
      { download := Except.ok (), localExists := true, decodeOk := true,
        infer := Except.ok [(0, 9/10)], names := fun _ => "person" }
      true "2024-01-01 12:00:00"
      (fun _ => Except.ok ()) (fun _ => Except.ok ())).response.count = some 1 :=
  (c3_manual_detect_summary
    { download := Except.ok (), localExists := true, decodeOk := true,
      infer := Except.ok [(0, 9/10)], names := fun _ => "person" }
    true "2024-01-01 12:00:00"
    (fun _ => Except.ok ()) (fun _ => Except.ok ())).2.2.2 rfl

/-! ### C4 — ResultRecord invariants -/

/-- C4: every record built for publishing satisfies the ResultRecord
invariants: an "Error" status comes with a set error field and a zero
detections_count; a "Detected" status comes with a non-empty
all_detections list, first_label equal to the label of its head, and
detections_count equal to its length. -/
theorem c4_record_invariants (ts : String)
    (detections : Option (List DetectionItem)) (error : Option String) :
    ((build_record ts detections error).status = "Error" →
      (build_record ts detections error).error ≠ none ∧
      (build_record ts detections error).detections_count = 0) ∧
    ((build_record ts detections error).status = "Detected" →
      ∃ d ds, (build_record ts detections error).all_detections = some (d :: ds) ∧
        (build_record ts detections error).first_label = some d.label ∧
        (build_record ts detections error).detections_count = (d :: ds).length) := by
  by_cases h : truthyStr error = true
  · rcases error with _ | e
    · simp [truthyStr] at h
    · constructor
      · intro _
        exact ⟨by simp [build_record, h], by simp [build_record, h]⟩
      · intro hst
        simp [build_record, h] at hst
  · rw [Bool.not_eq_true] at h
    rcases detections with _ | (_ | ⟨d, ds⟩)
    · constructor <;> intro hst <;> simp [build_record, h] at hst
    · constructor <;> intro hst <;> simp [build_record, h] at hst
    · constructor
      · intro hst
        simp [build_record, h] at hst
      · intro _
        exact ⟨d, ds, by simp [build_record, h], by simp [build_record, h],
          by simp [build_record, h]⟩

/-- C4 witness: the invariant applied to a concrete error record. -/
theorem c4_record_invariants_witness :
    (build_record "t" none (some "boom")).error ≠ none ∧
    (build_record "t" none (some "boom")).detections_count = 0 :=
  (c4_record_invariants "t" none (some "boom")).1 rfl

/-! ### C5 — exceptions are converted to Failed outcomes -/

/-- C5: any exception raised by the image fetch (timeout, network error,
non-2xx status) or by the detector lands in the `except` arm of
`detect_objects` and becomes the `(None, "Detection error: ...")` return
value; `detect_objects` is a total function of its environment, so no
exception propagates to its caller. -/
theorem c5_exceptions_become_failed (u e : String) (env : DetectEnv) :
    (env.download = Except.error e →
      (detect_objects (some u) env).ret = (none, some ("Detection error: " ++ e))) ∧
    (env.download = Except.ok () → env.decodeOk = true → env.infer = Except.error e →
      (detect_objects (some u) env).ret = (none, some ("Detection error: " ++ e))) ∧
    (env.localExists = true → env.decodeOk = true → env.infer = Except.error e →
      (detect_objects none env).ret = (none, some ("Detection error: " ++ e))) := by
  refine ⟨?_, ?_, ?_⟩
  · intro h
    simp [detect_objects, h]
  · intro h1 h2 h3
    simp [detect_objects, h1, h2, h3]
  · intro h1 h2 h3
    simp [detect_objects, h1, h2, h3]

/-- C5 witness: a fetch timeout at a concrete environment becomes a
Failed outcome with a reason string. -/
theorem c5_exceptions_become_failed_witness :
    (detect_objects (some "http://your-esp32-ip/capture")
      { download := Except.error "timed out", localExists := false,
        decodeOk := false, infer := Except.error "unused",
        names := fun _ => "" }).ret =
      (none, some ("Detection error: " ++ "timed out")) :=
  (c5_exceptions_become_failed "http://your-esp32-ip/capture" "timed out"
    { download := Except.error "timed out", localExists := false,
      decodeOk := false, infer := Except.error "unused",
      names := fun _ => "" }).1 rfl

/-! ### C6 — publish returns a boolean, never an exception -/

/-- C6: `send_to_firebase` is a total boolean function of its
environment — an internal store failure surfaces as `false`, never as
an exception — and it returns `true` exactly when the store is
initialized and both writes (overwrite latest, append to history) are
acknowledged; it returns `false` when either write raises or the store
is not initialized. -/
theorem c6_publish_ack (fb : Bool) (ts : String)
    (detections : Option (List DetectionItem)) (error : Option String)
    (setLatest pushHistory : ResultRecord → Except String Unit) :
    send_to_firebase fb ts detections error setLatest pushHistory = true ↔
      (fb = true ∧
        setLatest (build_record ts detections error) = Except.ok () ∧
        pushHistory (build_record ts detections error) = Except.ok ()) := by
  rcases fb with _ | _
  · simp [send_to_firebase]
  · simp only [send_to_firebase, if_neg (by decide : ¬ true = false)]
    rcases h1 : setLatest (build_record ts detections error) with e1 | u1
    · simp [h1]
    · cases u1
      rcases h2 : pushHistory (build_record ts detections error) with e2 | u2
      · simp [h1, h2]
      · cases u2
        simp [h1, h2]

/-- C6 witness: with an initialized store and two acknowledging writes,
publish returns true. -/
theorem c6_publish_ack_witness :
    send_to_firebase true "t" none none
      (fun _ => Except.ok ()) (fun _ => Except.ok ()) = true :=
  (c6_publish_ack true "t" none none
    (fun _ => Except.ok ()) (fun _ => Except.ok ())).mpr ⟨rfl, rfl, rfl⟩

/-! ### C7 — readiness guard skips the pipeline -/

/-- C7: when the model-readiness flag or the store-readiness flag is
false at cycle start, the iteration performs zero fetch, detect and
publish calls, still increments the cycle counter exactly once, and
sleeps 60 time units before the next iteration of the loop. -/
theorem c7_guard_skips_cycle (c : Nat) (env : IterEnv) (rest : List IterEnv)
    (h : env.modelLoaded = false ∨ env.firebase_initialized = false) :
    detection_worker_run c (env :: rest) =
      { count := c + 1, fetchCalls := 0, detectCalls := 0, publishCalls := 0,
        published := none, sleep := 60 } :: detection_worker_run (c + 1) rest := by
  rcases h with h | h
  · simp [detection_worker_run, detection_worker_iter, h]
  · by_cases hm : env.modelLoaded = false
    · simp [detection_worker_run, detection_worker_iter, hm]
    · simp [detection_worker_run, detection_worker_iter, hm, h]

/-- C7 witness: a single iteration with the model not loaded. -/
theorem c7_guard_skips_cycle_witness :
    detection_worker_run 0
      [{ modelLoaded := false, firebase_initialized := true,
         denv := { download := Except.ok (), localExists := true, decodeOk := true,
                   infer := Except.ok [], names := fun _ => "" },
         ts := "t", setLatest := fun _ => Except.ok (),
         pushHistory := fun _ => Except.ok (), interrupt := none }] =
      [{ count := 1, fetchCalls := 0, detectCalls := 0, publishCalls := 0,
         published := none, sleep := 60 }] :=
  c7_guard_skips_cycle 0
    { modelLoaded := false, firebase_initialized := true,
      denv := { download := Except.ok (), localExists := true, decodeOk := true,
                infer := Except.ok [], names := fun _ => "" },
      ts := "t", setLatest := fun _ => Except.ok (),
      pushHistory := fun _ => Except.ok (), interrupt := none }
    [] (Or.inl rfl)

/-! ### C8 — fixed backoff after a failed iteration -/

/-- C8: an iteration that ends in an unhandled exception sleeps exactly
the 60-unit backoff once, and the next iteration that completes without
an unhandled exception sleeps the normal 30 units — the backoff is
never carried over past a successful cycle. -/
theorem c8_backoff_once_then_normal (c : Nat) (e1 e2 : IterEnv)
    (rest : List IterEnv)
    (h1m : e1.modelLoaded = true) (h1f : e1.firebase_initialized = true)
    (h1i : e1.interrupt ≠ none)
    (h2m : e2.modelLoaded = true) (h2f : e2.firebase_initialized = true)
    (h2i : e2.interrupt = none) :
    (detection_worker_run c (e1 :: e2 :: rest)).map IterResult.sleep =
      60 :: 30 :: (detection_worker_run (c + 2) rest).map IterResult.sleep := by
  rcases hint : e1.interrupt with _ | msg
  · exact absurd hint h1i
  · simp only [detection_worker_run, detection_worker_iter, h1m, h1f, h2m, h2f,
      hint, h2i]
    simp [Nat.add_assoc]

/-- C8 witness: a concrete failed iteration followed by a concrete
successful one sleeps 60 then 30. -/
theorem c8_backoff_once_then_normal_witness :
    (detection_worker_run 0
      [{ modelLoaded := true, firebase_initialized := true,
         denv := { download := Except.ok (), localExists := true, decodeOk := true,
                   infer := Except.ok [], names := fun _ => "" },
         ts := "t", setLatest := fun _ => Except.ok (),
         pushHistory := fun _ => Except.ok (), interrupt := some "boom" },
       { modelLoaded := true, firebase_initialized := true,
         denv := { download := Except.ok (), localExists := true, decodeOk := true,
                   infer := Except.ok [], names := fun _ => "" },
         ts := "t", setLatest := fun _ => Except.ok (),
         pushHistory := fun _ => Except.ok (), interrupt := none }]).map
      IterResult.sleep = [60, 30] :=
  c8_backoff_once_then_normal 0
    { modelLoaded := true, firebase_initialized := true,
      denv := { download := Except.ok (), localExists := true, decodeOk := true,
                infer := Except.ok [], names := fun _ => "" },
      ts := "t", setLatest := fun _ => Except.ok (),
      pushHistory := fun _ => Except.ok (), interrupt := some "boom" }
    { modelLoaded := true, firebase_initialized := true,
      denv := { download := Except.ok (), localExists := true, decodeOk := true,
                infer := Except.ok [], names := fun _ => "" },
      ts := "t", setLatest := fun _ => Except.ok (),
      pushHistory := fun _ => Except.ok (), interrupt := none }
    [] rfl rfl (by decide) rfl rfl rfl

/-! ### C9 — confidence rounding and bounds -/

/-- C9: every detection item built from the detector output stores the
confidence of its box rounded to two decimal places (so one hundred
times it is an integer), and the stored value lies in [0,1] whenever
the detector returns confidences in [0,1]. -/
theorem c9_confidence_rounded (names : Nat → String) (boxes : List (Nat × ℚ))
    (hb : ∀ b ∈ boxes, 0 ≤ b.2 ∧ b.2 ≤ 1) :
    ∀ d ∈ mkItems names boxes,
      (∃ b ∈ boxes, d.confidence = round2 b.2) ∧
      (∃ k : ℤ, d.confidence * 100 = (k : ℚ)) ∧
      0 ≤ d.confidence ∧ d.confidence ≤ 1 := by
  intro d hd
  simp only [mkItems, List.mem_map] at hd
  rcases hd with ⟨b, hbm, rfl⟩
  have hconf := hb b hbm
  refine ⟨⟨b, hbm, rfl⟩, ⟨roundHalfEven (b.2 * 100), round2_mul_100_int b.2⟩, ?_, ?_⟩
  · exact round2_nonneg b.2 hconf.1
  · exact round2_le_one b.2 hconf.2

/-- C9 witness: a detector box with confidence 0.87 yields a stored
confidence in [0,1]. -/
theorem c9_confidence_rounded_witness :
    0 ≤ round2 (87/100 : ℚ) ∧ round2 (87/100 : ℚ) ≤ 1 :=
  have h := c9_confidence_rounded (fun _ => "cat") [(0, 87/100)]
    (by norm_num)
    { label := "cat", confidence := round2 (87/100) }
    (by simp [mkItems])
  ⟨h.2.2.1, h.2.2.2⟩

/-! ### C10 — a non-empty error string takes precedence -/

/-- C10: for every call of the record builder with a non-empty error
string, the record has status "Error", detections_count 0 and the error
field set to that string, regardless of the detections argument. -/
theorem c10_error_precedence (ts : String)
    (detections : Option (List DetectionItem)) (e : String) (h : e ≠ "") :
    (build_record ts detections (some e)).status = "Error" ∧
    (build_record ts detections (some e)).detections_count = 0 ∧
    (build_record ts detections (some e)).error = some e := by
  have ht : truthyStr (some e) = true := by
    simp only [truthyStr, bne_iff_ne, ne_eq]
    exact h
  refine ⟨?_, ?_, ?_⟩ <;> simp [build_record, ht]

/-- C10 witness: a non-empty error alongside a non-empty detections
list still yields an "Error" record with count 0. -/
theorem c10_error_precedence_witness :
    ("boom" : String) ≠ "" ∧
    ((build_record "t" (some [{ label := "cat", confidence := 1/2 }])
        (some "boom")).status = "Error" ∧
      (build_record "t" (some [{ label := "cat", confidence := 1/2 }])
        (some "boom")).detections_count = 0 ∧
      (build_record "t" (some [{ label := "cat", confidence := 1/2 }])
        (some "boom")).error = some "boom") :=
  ⟨by decide,
    c10_error_precedence "t" (some [{ label := "cat", confidence := 1/2 }])
      "boom" (by decide)⟩

end ObjectDetectionApp
